import Mathlib

/-! # BLE client scripts: a shallow embedding

Model of the two Python programs of the repository,
`data_transmission/__main__.py` and `ble_speed_test/__main__.py`.

Conventions of the embedding:
* byte strings (`bytearray`) are `List Nat`, one entry per byte;
* floats produced by `struct.unpack` are kept as their IEEE-754 binary32
  bit patterns (`Nat`); the function `f32val` gives their numeric value;
* each `async` method of `BLEManager` becomes a pure function from a
  transport behaviour (`Env`) and the manager state to a result, the new
  manager state, and the trace of transport operations and key diagnostic
  prints it performs (`List Ev`);
* a Python exception escaping a function is an `Except.error`;
* the `while True: await asyncio.sleep(1)` loop of `run` is eventually
  interrupted by the operator's cancellation signal, after which the
  `except` and `finally` blocks run; `run` is therefore modelled as
  proceeding to its `finally` block once subscription succeeded.
The `BLEManager` class is textually identical in the two scripts, apart
from the registry contents, which are fields of the instance; it is
embedded once.
-/

/-- A discovered BLE peripheral: `bleak.BLEDevice`, with its advertised
name and address. -/
structure Device where
  name : String
  address : String
  deriving DecidableEq

/-- The part of `bleak.BleakClient` the scripts observe: the
`is_connected` flag. -/
structure Client where
  is_connected : Bool
  deriving DecidableEq

/-- Python exceptions that cross function boundaries in the scripts:
`struct.error` raised by `unpack` on a size mismatch (modelled with the
format's expected size and the buffer's actual length, both of which
determine the raise), a `BleakError` from a transport operation (tagged
with the uuid it was issued for), and a plain `Exception(msg)`. -/
inductive PyErr where
  | lengthMismatch (expected : Nat) (actual : Nat)
  | bleakError (uuid : String)
  | pythonException (msg : String)
  deriving DecidableEq

/-- A little-endian 32-bit word assembled from four bytes. -/
def leWord (b0 b1 b2 b3 : Nat) : Nat :=
  b0 + 256 * b1 + 65536 * b2 + 16777216 * b3

/-- `struct.unpack("<fff", data)`: requires exactly 12 bytes, otherwise
raises `struct.error`; yields the three little-endian 32-bit words, the
binary32 bit patterns of the three floats. -/
def unpack_fff (data : List Nat) : Except PyErr (Nat × Nat × Nat) :=
  if data.length = 12 then
    Except.ok
      (leWord (data.getD 0 0) (data.getD 1 0) (data.getD 2 0) (data.getD 3 0),
       leWord (data.getD 4 0) (data.getD 5 0) (data.getD 6 0) (data.getD 7 0),
       leWord (data.getD 8 0) (data.getD 9 0) (data.getD 10 0) (data.getD 11 0))
  else Except.error (PyErr.lengthMismatch 12 data.length)

/-- One little-endian 32-bit word from a buffer that must hold exactly
4 bytes: the common core of `unpack("<i", _)`, `unpack("<f", _)` and
`unpack("<L", _)`. -/
def unpack_word4 (data : List Nat) : Except PyErr Nat :=
  if data.length = 4 then
    Except.ok (leWord (data.getD 0 0) (data.getD 1 0) (data.getD 2 0) (data.getD 3 0))
  else Except.error (PyErr.lengthMismatch 4 data.length)

/-- `struct.unpack("<i", data)`: one signed little-endian 32-bit integer. -/
def unpack_i (data : List Nat) : Except PyErr Int :=
  (unpack_word4 data).map
    (fun w => if w < 2147483648 then (w : Int) else (w : Int) - 4294967296)

/-- `struct.unpack("<f", data)`: one little-endian binary32, kept as its
bit pattern. -/
def unpack_f (data : List Nat) : Except PyErr Nat :=
  unpack_word4 data

/-- `struct.unpack("<L", data)`: one unsigned little-endian 32-bit
integer. -/
def unpack_L (data : List Nat) : Except PyErr Nat :=
  unpack_word4 data

/-- The numeric value of an IEEE-754 binary32 bit pattern, as a rational;
`none` for the infinity / NaN exponent. -/
def f32val (bits : Nat) : Option ℚ :=
  let s := bits / 2147483648 % 2
  let e := bits / 8388608 % 256
  let f := bits % 8388608
  if e = 255 then none
  else
    let mag : ℚ :=
      if e = 0 then (f : ℚ) / 8388608 * (1 / 2 ^ 126)
      else (1 + (f : ℚ) / 8388608) * 2 ^ e / 2 ^ 127
    some (if s = 1 then -mag else mag)

/-- Observable actions of a run: the transport operations the scripts
issue, and the diagnostic prints the claims refer to. -/
inductive Ev where
  | evConnect
  | evDisconnect
  | evStartNotify (uuid : String)
  | evStopNotify (uuid : String)
  | logFound (name : String)
  | logNotFound
  | logNoDevice
  | logMissing (label : String) (uuid : String)
  | logConnectFailed
  deriving DecidableEq

/-- The transport's behaviour over one run: the advertisements that
arrive within the scan window (in arrival order), whether the GATT
connection attempt succeeds, the characteristic uuids the peripheral
exposes, and which transport operations raise `BleakError`. -/
structure Env where
  adverts : List Device
  connectOk : Bool
  services : List String
  startNotifyFails : String → Bool
  stopNotifyFails : String → Bool
  disconnectFails : Bool

/-- The fields of `BLEManager`. `characteristic_uuids` is the dict, in
insertion order, of pairs (logical name, uuid). -/
structure BLEManager where
  target_name : String
  service_uuid : String
  characteristic_uuids : List (String × String)
  device : Option Device
  client : Option Client
  deriving DecidableEq

/-- `BLEManager.scan_for_device`: the detection callback enqueues every
advertisement whose device name equals `target_name`; the first one is
taken; if none arrives within the timeout, `asyncio.TimeoutError` is
caught and `False` returned. -/
def BLEManager.scan_for_device (env : Env) (st : BLEManager) :
    Bool × BLEManager × List Ev :=
  match env.adverts.find? (fun d => d.name == st.target_name) with
  | some d => (true, { st with device := some d }, [Ev.logFound d.name])
  | none => (false, st, [Ev.logNotFound])

/-- The validation loop inside `BLEManager.connect`: walk the registry in
order and return the first entry whose uuid is absent from the
peripheral's services, `none` when all are present. -/
def firstMissing (services : List String) : List (String × String) → Option (String × String)
  | [] => none
  | (label, uuid) :: rest =>
    if services.contains uuid then firstMissing services rest
    else some (label, uuid)

/-- `BLEManager.connect`: returns `False` at once when no device was
stored; otherwise creates a fresh client, connects, validates the
registry entries in order against the peripheral's services,
disconnecting and returning `False` at the first missing one; any
exception inside the `try` block (connect failure, or a disconnect
failure during validation) is caught and turned into `False`. -/
def BLEManager.connect (env : Env) (st : BLEManager) :
    Bool × BLEManager × List Ev :=
  match st.device with
  | none => (false, st, [Ev.logNoDevice])
  | some _ =>
    if env.connectOk then
      match firstMissing env.services st.characteristic_uuids with
      | some (label, uuid) =>
        if env.disconnectFails then
          (false, { st with client := some { is_connected := true } },
           [Ev.evConnect, Ev.logMissing label uuid, Ev.evDisconnect, Ev.logConnectFailed])
        else
          (false, { st with client := some { is_connected := false } },
           [Ev.evConnect, Ev.logMissing label uuid, Ev.evDisconnect])
      | none =>
        (true, { st with client := some { is_connected := true } }, [Ev.evConnect])
    else
      (false, { st with client := some { is_connected := false } },
       [Ev.evConnect, Ev.logConnectFailed])

/-- The loop of `BLEManager.start_notifications`: subscribe in registry
order; a `start_notify` failure raises out of the loop at once (the
method has no handler), leaving the earlier subscriptions active. -/
def startLoop (env : Env) : List (String × String) → Except PyErr Unit × List Ev
  | [] => (Except.ok (), [])
  | (_, uuid) :: rest =>
    if env.startNotifyFails uuid then
      (Except.error (PyErr.bleakError uuid), [Ev.evStartNotify uuid])
    else
      let r := startLoop env rest
      (r.1, Ev.evStartNotify uuid :: r.2)

/-- `BLEManager.start_notifications`. The manager state is unchanged: the
scripts keep no subscription bookkeeping of their own. -/
def BLEManager.start_notifications (env : Env) (st : BLEManager) :
    Except PyErr Unit × BLEManager × List Ev :=
  ((startLoop env st.characteristic_uuids).1, st, (startLoop env st.characteristic_uuids).2)

/-- The loop of `BLEManager.stop_notifications`: for each registry uuid,
if the client exists and reports connected, issue `stop_notify`; a
failure raises out of the loop at once (no handler). -/
def stopLoop (env : Env) (cl : Option Client) : List String → Except PyErr Unit × List Ev
  | [] => (Except.ok (), [])
  | uuid :: rest =>
    match cl with
    | some c =>
      if c.is_connected then
        if env.stopNotifyFails uuid then
          (Except.error (PyErr.bleakError uuid), [Ev.evStopNotify uuid])
        else
          let r := stopLoop env (some c) rest
          (r.1, Ev.evStopNotify uuid :: r.2)
      else stopLoop env (some c) rest
    | none => stopLoop env none rest

/-- `BLEManager.stop_notifications`. -/
def BLEManager.stop_notifications (env : Env) (st : BLEManager) :
    Except PyErr Unit × BLEManager × List Ev :=
  ((stopLoop env st.client (st.characteristic_uuids.map Prod.snd)).1, st,
   (stopLoop env st.client (st.characteristic_uuids.map Prod.snd)).2)

/-- `BLEManager.disconnect`: issue the transport disconnect only when a
client exists and reports connected; a transport failure raises (no
handler) and the connection flag is left as the transport reported it. -/
def BLEManager.disconnect (env : Env) (st : BLEManager) :
    Except PyErr Unit × BLEManager × List Ev :=
  match st.client with
  | some c =>
    if c.is_connected then
      if env.disconnectFails then
        (Except.error (PyErr.bleakError "disconnect"), st, [Ev.evDisconnect])
      else
        (Except.ok (), { st with client := some { is_connected := false } }, [Ev.evDisconnect])
    else (Except.ok (), st, [])
  | none => (Except.ok (), st, [])

/-- Terminal outcome of `BLEManager.run`: which exit path the method
took. The Python method returns `None` on every non-raising path; the
constructors record the control flow, which the scripts surface through
their diagnostic prints. `raised e` is the path on which the exception
`e` propagates out of `run` to its caller. -/
inductive RunResult where
  | discoveryTimeout
  | connectFailed
  | completed
  | raised (e : PyErr)
  deriving DecidableEq

/-- `BLEManager.run`: scan (early return on timeout), connect (early
return on failure), subscribe — note that `start_notifications` is
called before the `try`/`finally` block, so an exception there
propagates without any cleanup — then block until cancellation, then run
the `finally` block: `stop_notifications` followed by `disconnect`,
where an exception in either propagates out of `run` and aborts the
rest of the block. -/
def BLEManager.run (env : Env) (st : BLEManager) :
    RunResult × BLEManager × List Ev :=
  match st.scan_for_device env with
  | (false, st1, tr1) => (RunResult.discoveryTimeout, st1, tr1)
  | (true, st1, tr1) =>
    match st1.connect env with
    | (false, st2, tr2) => (RunResult.connectFailed, st2, tr1 ++ tr2)
    | (true, st2, tr2) =>
      match st2.start_notifications env with
      | (Except.error e, st3, tr3) => (RunResult.raised e, st3, tr1 ++ tr2 ++ tr3)
      | (Except.ok _, st3, tr3) =>
        match st3.stop_notifications env with
        | (Except.error e, st4, tr4) =>
          (RunResult.raised e, st4, tr1 ++ tr2 ++ tr3 ++ tr4)
        | (Except.ok _, st4, tr4) =>
          match st4.disconnect env with
          | (Except.error e, st5, tr5) =>
            (RunResult.raised e, st5, tr1 ++ tr2 ++ tr3 ++ tr4 ++ tr5)
          | (Except.ok _, st5, tr5) =>
            (RunResult.completed, st5, tr1 ++ tr2 ++ tr3 ++ tr4 ++ tr5)

/-- The teardown sequence as `run`'s `finally` block executes it:
`stop_notifications` then `disconnect`, an exception in the former
skipping the latter. -/
def teardown (env : Env) (st : BLEManager) :
    Except PyErr Unit × BLEManager × List Ev :=
  match st.stop_notifications env with
  | (Except.error e, st1, tr1) => (Except.error e, st1, tr1)
  | (Except.ok _, st1, tr1) =>
    match st1.disconnect env with
    | (r, st2, tr2) => (r, st2, tr1 ++ tr2)

/-- Predicate on trace events: is this a `stop_notify` transport
operation? -/
def isStopEv : Ev → Bool
  | Ev.evStopNotify _ => true
  | _ => false

/-- Predicate on trace events: is this the disconnect transport
operation? -/
def isDiscEv : Ev → Bool
  | Ev.evDisconnect => true
  | _ => false

namespace DataTransmission

/-- The characteristic registry of `data_transmission/__main__.py`, in
dict insertion order. -/
def CHARACTERISTIC_UUIDS : List (String × String) :=
  [("acceleration", "19B10001-E8F2-537E-4F6C-D104768A1214"),
   ("rotation", "19B10002-E8F2-537E-4F6C-D104768A1215"),
   ("magnetometer", "19B10002-E8F2-537E-4F6C-D104768A1216"),
   ("temperature", "19B10003-E8F2-537E-4F6C-D104768A1217")]

/-- Target device name. -/
def TARGET_NAME : String := "MonArduinoBLE"

/-- Service uuid. -/
def SERVICE_UUID : String := "19B10000-E8F2-537E-4F6C-D104768A1214"

/-- `AccelerationCharacteristic`: three floats, kept as binary32 bit
patterns. -/
structure AccelerationCharacteristic where
  ax : Nat
  ay : Nat
  az : Nat
  deriving DecidableEq

/-- `AccelerationCharacteristic.read_from`: `ax, ay, az = unpack("<fff", data)`. -/
def AccelerationCharacteristic.read_from (data : List Nat) :
    Except PyErr AccelerationCharacteristic :=
  match unpack_fff data with
  | Except.ok (ax, ay, az) => Except.ok { ax := ax, ay := ay, az := az }
  | Except.error e => Except.error e

/-- `RotationCharacteristic`: three floats, kept as binary32 bit
patterns. -/
structure RotationCharacteristic where
  rx : Nat
  ry : Nat
  rz : Nat
  deriving DecidableEq

/-- `RotationCharacteristic.read_from`: `rx, ry, rz = unpack("<fff", data)`. -/
def RotationCharacteristic.read_from (data : List Nat) :
    Except PyErr RotationCharacteristic :=
  match unpack_fff data with
  | Except.ok (rx, ry, rz) => Except.ok { rx := rx, ry := ry, rz := rz }
  | Except.error e => Except.error e

/-- `MagnetometerCharacteristic`: one signed 32-bit integer. -/
structure MagnetometerCharacteristic where
  azimuth : Int
  deriving DecidableEq

/-- `MagnetometerCharacteristic.read_from`: `azimuth, = unpack("<i", data)`. -/
def MagnetometerCharacteristic.read_from (data : List Nat) :
    Except PyErr MagnetometerCharacteristic :=
  match unpack_i data with
  | Except.ok azimuth => Except.ok { azimuth := azimuth }
  | Except.error e => Except.error e

/-- `TemperatureCharacteristic`: one float, kept as its binary32 bit
pattern. -/
structure TemperatureCharacteristic where
  temp : Nat
  deriving DecidableEq

/-- `TemperatureCharacteristic.read_from`: `temp, = unpack("<f", data)`. -/
def TemperatureCharacteristic.read_from (data : List Nat) :
    Except PyErr TemperatureCharacteristic :=
  match unpack_f data with
  | Except.ok temp => Except.ok { temp := temp }
  | Except.error e => Except.error e

/-- The decoded value the handler prints, one variant per characteristic
class. -/
inductive Measurement where
  | acceleration (a : AccelerationCharacteristic)
  | rotation (r : RotationCharacteristic)
  | magnetometer (m : MagnetometerCharacteristic)
  | temperature (t : TemperatureCharacteristic)
  deriving DecidableEq

/-- `notification_handler` of `data_transmission/__main__.py`: dispatch
on the measurement type string (the `match` statement tests the literals
in order); a type matching no case leaves `result = None`, which is then
printed; an exception from `read_from` propagates out of the handler
(there is no handler around the dispatch). `Except.ok v` is the path on
which the function returns normally after printing `v` (`none` standing
for Python's `None`). -/
def notification_handler (measurement_type : String) (data : List Nat) :
    Except PyErr (Option Measurement) :=
  if measurement_type = "acceleration" then
    (AccelerationCharacteristic.read_from data).map (fun a => some (Measurement.acceleration a))
  else if measurement_type = "rotation" then
    (RotationCharacteristic.read_from data).map (fun r => some (Measurement.rotation r))
  else if measurement_type = "magnetometer" then
    (MagnetometerCharacteristic.read_from data).map (fun m => some (Measurement.magnetometer m))
  else if measurement_type = "temperature" then
    (TemperatureCharacteristic.read_from data).map (fun t => some (Measurement.temperature t))
  else Except.ok none

/-- The manager `main()` constructs. -/
def ble_manager : BLEManager :=
  { target_name := TARGET_NAME
    service_uuid := SERVICE_UUID
    characteristic_uuids := CHARACTERISTIC_UUIDS
    device := none
    client := none }

end DataTransmission

namespace BleSpeedTest

/-- The characteristic registry of `ble_speed_test/__main__.py`. -/
def CHARACTERISTIC_UUIDS : List (String × String) :=
  [("time", "19B10001-E8F2-537E-4F6C-D104768A1214")]

/-- Target device name. -/
def TARGET_NAME : String := "MonArduinoBLE"

/-- A Python value as stored in the `time` field: either an integer or a
tuple of integers. The distinction matters because
`TimeCharacteristic.read_from` binds the whole result of `unpack` — a
1-tuple — without destructuring it. -/
inductive PyVal where
  | int (n : Nat)
  | tuple (elems : List Nat)
  deriving DecidableEq

/-- `TimeCharacteristic`: the constructor annotates `time : int`, but
`read_from` stores whatever `unpack` returned. -/
structure TimeCharacteristic where
  time : PyVal
  deriving DecidableEq

/-- `TimeCharacteristic.read_from`: `time = unpack("<L", data)` — note
the absence of a trailing comma on the left-hand side, so `time` is
bound to the whole 1-tuple returned by `unpack`, not to its element. -/
def TimeCharacteristic.read_from (data : List Nat) :
    Except PyErr TimeCharacteristic :=
  match unpack_L data with
  | Except.ok w => Except.ok { time := PyVal.tuple [w] }
  | Except.error e => Except.error e

/-- `notification_handler` of `ble_speed_test/__main__.py`: only the
"time" case decodes; every other measurement type raises
`Exception("Unreachable")`; a `struct.error` from `read_from`
propagates. The timing-statistics bookkeeping around the dispatch
(global `times`, `last_time`) is outside the modelled core. -/
def notification_handler (measurement_type : String) (data : List Nat) :
    Except PyErr TimeCharacteristic :=
  if measurement_type = "time" then TimeCharacteristic.read_from data
  else Except.error (PyErr.pythonException "Unreachable")

end BleSpeedTest

/-- The acceleration uuid of the full profile. -/
def accUuid : String := "19B10001-E8F2-537E-4F6C-D104768A1214"

/-- The rotation uuid of the full profile. -/
def rotUuid : String := "19B10002-E8F2-537E-4F6C-D104768A1215"

/-- The magnetometer uuid of the full profile. -/
def magUuid : String := "19B10002-E8F2-537E-4F6C-D104768A1216"

/-- The temperature uuid of the full profile. -/
def tempUuid : String := "19B10003-E8F2-537E-4F6C-D104768A1217"

/-- A peripheral advertising the target name. -/
def devA : Device :=
  { name := "MonArduinoBLE", address := "00:11:22:33:44:55" }

/-- A fully cooperative transport: the target device advertises, the
connection succeeds, all four characteristics are exposed, and no
operation fails. -/
def envAllOk : Env :=
  { adverts := [devA]
    connectOk := true
    services := [accUuid, rotUuid, magUuid, tempUuid]
    startNotifyFails := fun _ => false
    stopNotifyFails := fun _ => false
    disconnectFails := false }

/-- A transport where subscription fails on the second characteristic
(rotation) and everything else succeeds. -/
def envC1 : Env :=
  { envAllOk with startNotifyFails := fun u => u == rotUuid }

/-- A transport where unsubscription fails on the first characteristic
(acceleration) and everything else succeeds. -/
def envC2 : Env :=
  { envAllOk with stopNotifyFails := fun u => u == accUuid }

/-- A transport exposing every characteristic except the magnetometer. -/
def envC6 : Env :=
  { envAllOk with services := [accUuid, rotUuid, tempUuid] }

/-- A transport on which only a peripheral with a different name
advertises within the scan window. -/
def envC7 : Env :=
  { envAllOk with adverts := [{ name := "OtherDevice", address := "aa" }] }

/-- A manager holding a connected client, as `run` leaves it when
subscription succeeded and cancellation arrives. -/
def managerConnected : BLEManager :=
  { DataTransmission.ble_manager with
      device := some devA
      client := some { is_connected := true } }

theorem stopLoop_none (env : Env) (l : List String) :
    stopLoop env none l = (Except.ok (), []) := by
  induction l with
  | nil => rfl
  | cons u rest ih => simp [stopLoop, ih]

theorem stopLoop_disconnected (env : Env) (l : List String) :
    stopLoop env (some { is_connected := false }) l = (Except.ok (), []) := by
  induction l with
  | nil => rfl
  | cons u rest ih => simp [stopLoop, ih]

theorem stopLoop_ok (env : Env) (l : List String)
    (h : ∀ u ∈ l, env.stopNotifyFails u = false) :
    stopLoop env (some { is_connected := true }) l =
      (Except.ok (), l.map Ev.evStopNotify) := by
  induction l with
  | nil => rfl
  | cons u rest ih =>
    have hu := h u (List.mem_cons_self u rest)
    have hrest : ∀ x ∈ rest, env.stopNotifyFails x = false :=
      fun x hx => h x (List.mem_cons_of_mem u hx)
    simp [stopLoop, hu, ih hrest]

theorem startLoop_no_teardown_events (env : Env) (l : List (String × String)) :
    ((startLoop env l).2).countP isStopEv = 0 ∧
    ((startLoop env l).2).countP isDiscEv = 0 := by
  induction l with
  | nil => simp [startLoop]
  | cons p rest ih =>
    obtain ⟨a, b⟩ := p
    by_cases hf : env.startNotifyFails b
    · simp [startLoop, hf, isStopEv, isDiscEv]
    · simp [startLoop, hf, List.countP_cons, isStopEv, isDiscEv, ih.1, ih.2]

theorem scan_for_device_found (env : Env) (st : BLEManager) (d : Device)
    (h : env.adverts.find? (fun x => x.name == st.target_name) = some d) :
    st.scan_for_device env =
      (true, { st with device := some d }, [Ev.logFound d.name]) := by
  simp [BLEManager.scan_for_device, h]

theorem connect_validated (env : Env) (st : BLEManager) (d : Device)
    (hdev : st.device = some d) (hok : env.connectOk = true)
    (hval : firstMissing env.services st.characteristic_uuids = none) :
    st.connect env =
      (true, { st with client := some { is_connected := true } }, [Ev.evConnect]) := by
  simp [BLEManager.connect, hdev, hok, hval]

theorem connect_first_missing (env : Env) (st : BLEManager) (d : Device)
    (label uuid : String)
    (hdev : st.device = some d) (hok : env.connectOk = true)
    (hval : firstMissing env.services st.characteristic_uuids = some (label, uuid))
    (hdis : env.disconnectFails = false) :
    st.connect env =
      (false, { st with client := some { is_connected := false } },
       [Ev.evConnect, Ev.logMissing label uuid, Ev.evDisconnect]) := by
  simp [BLEManager.connect, hdev, hok, hval, hdis]

theorem teardown_inactive (env : Env) (st : BLEManager)
    (h : st.client = none ∨ st.client = some { is_connected := false }) :
    teardown env st = (Except.ok (), st, []) := by
  rcases h with h | h <;>
    simp [teardown, BLEManager.stop_notifications, h, stopLoop_none,
      stopLoop_disconnected, BLEManager.disconnect]

/-- C7: if no advertisement carrying exactly the target name arrives
within the scan window, `run` takes its discovery-timeout exit (prints
the not-found diagnostic and returns before anything else), and no
connect operation is ever issued: the trace holds no transport event at
all. -/
theorem C7_discovery_timeout (env : Env) (st : BLEManager)
    (h : ∀ d ∈ env.adverts, d.name ≠ st.target_name) :
    st.run env = (RunResult.discoveryTimeout, st, [Ev.logNotFound]) := by
  have hfind : env.adverts.find? (fun x => x.name == st.target_name) = none := by
    rw [List.find?_eq_none]
    intro x hx
    simp [h x hx]
  simp [BLEManager.run, BLEManager.scan_for_device, hfind]

/-- Witness for C7 at a concrete transport: only "OtherDevice"
advertises. -/
theorem C7_discovery_timeout_witness :
    DataTransmission.ble_manager.run envC7 =
      (RunResult.discoveryTimeout, DataTransmission.ble_manager, [Ev.logNotFound]) :=
  C7_discovery_timeout envC7 DataTransmission.ble_manager (by decide)

/-- C10: calling `connect` while no device has been discovered returns
`False` immediately, leaves the whole manager state (in particular the
`client` field) unchanged, and issues no transport operation: the trace
holds only the diagnostic print. -/
theorem C10_connect_without_device (env : Env) (st : BLEManager)
    (h : st.device = none) :
    st.connect env = (false, st, [Ev.logNoDevice]) := by
  simp [BLEManager.connect, h]

/-- Witness for C10 on the freshly constructed manager of `main()`. -/
theorem C10_connect_without_device_witness :
    DataTransmission.ble_manager.connect envAllOk =
      (false, DataTransmission.ble_manager, [Ev.logNoDevice]) :=
  C10_connect_without_device envAllOk DataTransmission.ble_manager rfl

/-- C6: when the first registry entry (in registry order) whose uuid the
peripheral does not expose is `(label, uuid)`, the whole run stops
there: validation aborts at that entry, the diagnostic names it, a
disconnect is issued, and no `start_notify` is ever attempted — the
final trace is exactly scan, connect, the missing-characteristic
diagnostic, disconnect. -/
theorem C6_validate_fail_fast (env : Env) (st : BLEManager) (d : Device)
    (label uuid : String)
    (hfind : env.adverts.find? (fun x => x.name == st.target_name) = some d)
    (hok : env.connectOk = true)
    (hmiss : firstMissing env.services st.characteristic_uuids = some (label, uuid))
    (hdis : env.disconnectFails = false) :
    st.run env = (RunResult.connectFailed,
      { st with device := some d, client := some { is_connected := false } },
      [Ev.logFound d.name, Ev.evConnect, Ev.logMissing label uuid, Ev.evDisconnect]) := by
  have h1 := scan_for_device_found env st d hfind
  have h2 := connect_first_missing env { st with device := some d } d label uuid
    (by simp) hok (by simpa using hmiss) hdis
  simp [BLEManager.run, h1, h2]

/-- Witness for C6: the magnetometer characteristic is absent. -/
theorem C6_validate_fail_fast_witness :
    DataTransmission.ble_manager.run envC6 = (RunResult.connectFailed,
      { DataTransmission.ble_manager with
          device := some devA
          client := some { is_connected := false } },
      [Ev.logFound "MonArduinoBLE", Ev.evConnect,
       Ev.logMissing "magnetometer" magUuid, Ev.evDisconnect]) :=
  C6_validate_fail_fast envC6 DataTransmission.ble_manager devA "magnetometer" magUuid
    (by decide) rfl (by decide) rfl

/-- C1 (counterexample): with subscription failing on the second
characteristic (rotation), the exception propagates out of `run` and the
trace ends at the failing `start_notify`: the acceleration subscription
that had already succeeded is never unsubscribed, no disconnect is
issued, and the client is left connected — not the recovery the claim
describes (1 unsubscription, disconnect, Idle). -/
theorem C1_counterexample :
    DataTransmission.ble_manager.run envC1 =
      (RunResult.raised (PyErr.bleakError rotUuid),
       { DataTransmission.ble_manager with
           device := some devA
           client := some { is_connected := true } },
       [Ev.logFound "MonArduinoBLE", Ev.evConnect,
        Ev.evStartNotify accUuid, Ev.evStartNotify rotUuid]) ∧
    Ev.evDisconnect ∉ (DataTransmission.ble_manager.run envC1).2.2 := by
  constructor
  · rfl
  · decide

/-- C1 (amended): when discovery and connection succeed, validation
passes, and the subscription loop raises `e` on some characteristic,
`run` terminates by propagating `e` to its caller; no recovery happens —
the trace holds no `stop_notify` and no disconnect operation, so the
subscriptions that had already succeeded stay active and the device
stays connected. -/
theorem C1_subscribe_failure_no_recovery (env : Env) (st : BLEManager)
    (d : Device) (e : PyErr)
    (hfind : env.adverts.find? (fun x => x.name == st.target_name) = some d)
    (hok : env.connectOk = true)
    (hval : firstMissing env.services st.characteristic_uuids = none)
    (hfail : (startLoop env st.characteristic_uuids).1 = Except.error e) :
    (st.run env).1 = RunResult.raised e ∧
    ((st.run env).2.2).countP isStopEv = 0 ∧
    ((st.run env).2.2).countP isDiscEv = 0 := by
  have h1 := scan_for_device_found env st d hfind
  have h2 := connect_validated env { st with device := some d } d (by simp) hok
    (by simpa using hval)
  have hrun : st.run env = (RunResult.raised e,
      { st with device := some d, client := some { is_connected := true } },
      [Ev.logFound d.name] ++ [Ev.evConnect] ++ (startLoop env st.characteristic_uuids).2) := by
    simp [BLEManager.run, h1, h2, BLEManager.start_notifications, hfail]
  rw [hrun]
  refine ⟨rfl, ?_, ?_⟩ <;>
    simp [List.countP_append, isStopEv, isDiscEv,
      (startLoop_no_teardown_events env st.characteristic_uuids).1,
      (startLoop_no_teardown_events env st.characteristic_uuids).2]

/-- Witness for the amended C1 at the concrete transport of the
counterexample. -/
theorem C1_subscribe_failure_no_recovery_witness :
    (DataTransmission.ble_manager.run envC1).1 = RunResult.raised (PyErr.bleakError rotUuid) ∧
    ((DataTransmission.ble_manager.run envC1).2.2).countP isStopEv = 0 ∧
    ((DataTransmission.ble_manager.run envC1).2.2).countP isDiscEv = 0 :=
  C1_subscribe_failure_no_recovery envC1 DataTransmission.ble_manager devA
    (PyErr.bleakError rotUuid) (by decide) rfl (by decide) rfl

/-- C2 (counterexample): with `stop_notify` failing on the first
characteristic, the teardown in `run`'s `finally` block stops right
there: the exception propagates out of `run`, the remaining three
characteristics are never unsubscribed, and no disconnect is issued —
teardown neither continues past the error, nor swallows it, nor reaches
a closed state. -/
theorem C2_counterexample :
    DataTransmission.ble_manager.run envC2 =
      (RunResult.raised (PyErr.bleakError accUuid),
       { DataTransmission.ble_manager with
           device := some devA
           client := some { is_connected := true } },
       [Ev.logFound "MonArduinoBLE", Ev.evConnect,
        Ev.evStartNotify accUuid, Ev.evStartNotify rotUuid,
        Ev.evStartNotify magUuid, Ev.evStartNotify tempUuid,
        Ev.evStopNotify accUuid]) ∧
    Ev.evDisconnect ∉ (DataTransmission.ble_manager.run envC2).2.2 := by
  constructor
  · rfl
  · decide

/-- C2 (amended): teardown, triggered with a connected client, performs
the full ordered sequence only when no transport operation errors: it
then unsubscribes every registry characteristic in registry order,
disconnects, and returns without error. (When an unsubscribe errors, the
error propagates and aborts the remaining unsubscribes and the
disconnect, as the counterexample shows.) -/
theorem C2_teardown_success_path (env : Env) (st : BLEManager) (c : Client)
    (hcl : st.client = some c) (hconn : c.is_connected = true)
    (hstop : ∀ u ∈ st.characteristic_uuids.map Prod.snd, env.stopNotifyFails u = false)
    (hdis : env.disconnectFails = false) :
    teardown env st = (Except.ok (),
      { st with client := some { is_connected := false } },
      (st.characteristic_uuids.map Prod.snd).map Ev.evStopNotify ++ [Ev.evDisconnect]) := by
  obtain ⟨b⟩ := c
  cases b
  · exact absurd hconn (by simp)
  · have hs := stopLoop_ok env (st.characteristic_uuids.map Prod.snd) hstop
    simp [teardown, BLEManager.stop_notifications, hcl, hs, BLEManager.disconnect, hdis]

/-- Witness for the amended C2 on a connected manager and a fully
cooperative transport. -/
theorem C2_teardown_success_path_witness :
    teardown envAllOk managerConnected = (Except.ok (),
      { managerConnected with client := some { is_connected := false } },
      [Ev.evStopNotify accUuid, Ev.evStopNotify rotUuid, Ev.evStopNotify magUuid,
       Ev.evStopNotify tempUuid, Ev.evDisconnect]) := by
  have h := C2_teardown_success_path envAllOk managerConnected
    { is_connected := true } rfl rfl (by decide) rfl
  simpa using h

/-- C8: if one execution of the teardown sequence finishes without an
exception, executing it again from the state it left behind performs no
transport operation at all: the second invocation returns successfully,
changes nothing, and its trace is empty — the `is_connected` guard in
`stop_notifications` and `disconnect` makes the sequence a no-op once
the client is disconnected. -/
theorem C8_teardown_second_noop (env : Env) (st : BLEManager)
    (h : (teardown env st).1 = Except.ok ()) :
    teardown env (teardown env st).2.1 =
      (Except.ok (), (teardown env st).2.1, []) := by
  match hcl : st.client with
  | none =>
    have ht : teardown env st = (Except.ok (), st, []) :=
      teardown_inactive env st (Or.inl hcl)
    rw [ht]
    exact teardown_inactive env st (Or.inl hcl)
  | some c =>
    obtain ⟨b⟩ := c
    cases b
    · have ht : teardown env st = (Except.ok (), st, []) :=
        teardown_inactive env st (Or.inr hcl)
      rw [ht]
      exact teardown_inactive env st (Or.inr hcl)
    · rcases hsl : stopLoop env (some { is_connected := true })
        (st.characteristic_uuids.map Prod.snd) with ⟨r, tr⟩
      cases r with
      | error e =>
        exfalso
        rw [teardown, BLEManager.stop_notifications] at h
        rw [hcl, hsl] at h
        simp at h
      | ok u =>
        cases hdf : env.disconnectFails
        · have ht : teardown env st = (Except.ok (),
              { st with client := some { is_connected := false } },
              tr ++ [Ev.evDisconnect]) := by
            simp [teardown, BLEManager.stop_notifications, hcl, hsl,
              BLEManager.disconnect, hdf]
          rw [ht]
          exact teardown_inactive env _ (Or.inr rfl)
        · exfalso
          rw [teardown, BLEManager.stop_notifications] at h
          rw [hcl, hsl] at h
          simp [BLEManager.disconnect, hcl, hdf] at h

/-- Witness for C8: one successful teardown on a connected manager,
then the guaranteed no-op. -/
theorem C8_teardown_second_noop_witness :
    teardown envAllOk (teardown envAllOk managerConnected).2.1 =
      (Except.ok (), (teardown envAllOk managerConnected).2.1, []) :=
  C8_teardown_second_noop envAllOk managerConnected rfl

/-- C3 (counterexample): a 3-byte buffer on the acceleration type makes
`read_from` raise `struct.error`, and the exception propagates out of
`notification_handler` instead of reaching the sink as a value; and in
the timing-only script an event whose measurement type is not in the
registry raises `Exception("Unreachable")` out of the handler rather
than being dropped. -/
theorem C3_counterexample :
    DataTransmission.notification_handler "acceleration" [0, 0, 0] =
      Except.error (PyErr.lengthMismatch 12 3) ∧
    BleSpeedTest.notification_handler "position" [] =
      Except.error (PyErr.pythonException "Unreachable") :=
  ⟨rfl, rfl⟩

/-- C3 (amended): in the full-profile script an event whose measurement
type is not one of the four registered names is dropped — the handler
returns normally with a `None` result, printed as a diagnostic — while a
decode failure (here: a wrong-length acceleration buffer) raises
`struct.error` out of the handler instead of being reported to the sink
as a value; in the timing-only script an unregistered measurement type
raises `Exception("Unreachable")` out of the handler. -/
theorem C3_handler_error_paths (measurement_type : String) (data : List Nat) :
    (measurement_type ∉
        (["acceleration", "rotation", "magnetometer", "temperature"] : List String) →
      DataTransmission.notification_handler measurement_type data = Except.ok none) ∧
    (data.length ≠ 12 →
      DataTransmission.notification_handler "acceleration" data =
        Except.error (PyErr.lengthMismatch 12 data.length)) ∧
    (measurement_type ≠ "time" →
      BleSpeedTest.notification_handler measurement_type data =
        Except.error (PyErr.pythonException "Unreachable")) := by
  refine ⟨?_, ?_, ?_⟩
  · intro h
    simp only [List.mem_cons, List.mem_singleton, not_or] at h
    obtain ⟨h1, h2, h3, h4, -⟩ := h
    simp [DataTransmission.notification_handler, h1, h2, h3, h4]
  · intro h
    simp [DataTransmission.notification_handler,
      DataTransmission.AccelerationCharacteristic.read_from, unpack_fff, Except.map, h]
  · intro h
    simp [BleSpeedTest.notification_handler, h]

/-- Witness for the amended C3 at a concrete unregistered type and a
concrete short buffer. -/
theorem C3_handler_error_paths_witness :
    DataTransmission.notification_handler "position" [0, 0, 0] = Except.ok none ∧
    DataTransmission.notification_handler "acceleration" [0, 0, 0] =
      Except.error (PyErr.lengthMismatch 12 3) ∧
    BleSpeedTest.notification_handler "position" [0, 0, 0] =
      Except.error (PyErr.pythonException "Unreachable") :=
  ⟨(C3_handler_error_paths "position" [0, 0, 0]).1 (by decide),
   (C3_handler_error_paths "position" [0, 0, 0]).2.1 (by decide),
   (C3_handler_error_paths "position" [0, 0, 0]).2.2 (by decide)⟩

/-- C4: for every registered logical name, a buffer whose length is not
the fixed width of that name (12 bytes for the two float triples, 4
bytes for the signed integer, the single float, and the unsigned 32-bit
timestamp) makes decoding fail with the length-mismatch error carrying
the expected and the actual length — nothing is ever silently
truncated. -/
theorem C4_length_mismatch (data : List Nat) :
    (data.length ≠ 12 →
      DataTransmission.AccelerationCharacteristic.read_from data =
        Except.error (PyErr.lengthMismatch 12 data.length) ∧
      DataTransmission.RotationCharacteristic.read_from data =
        Except.error (PyErr.lengthMismatch 12 data.length)) ∧
    (data.length ≠ 4 →
      DataTransmission.MagnetometerCharacteristic.read_from data =
        Except.error (PyErr.lengthMismatch 4 data.length) ∧
      DataTransmission.TemperatureCharacteristic.read_from data =
        Except.error (PyErr.lengthMismatch 4 data.length) ∧
      BleSpeedTest.TimeCharacteristic.read_from data =
        Except.error (PyErr.lengthMismatch 4 data.length)) := by
  constructor
  · intro h
    constructor <;>
      simp [DataTransmission.AccelerationCharacteristic.read_from,
        DataTransmission.RotationCharacteristic.read_from, unpack_fff, h]
  · intro h
    refine ⟨?_, ?_, ?_⟩ <;>
      simp [DataTransmission.MagnetometerCharacteristic.read_from,
        DataTransmission.TemperatureCharacteristic.read_from,
        BleSpeedTest.TimeCharacteristic.read_from,
        unpack_i, unpack_f, unpack_L, unpack_word4, Except.map, h]

/-- Witness for C4 at a concrete 1-byte buffer. -/
theorem C4_length_mismatch_witness :
    DataTransmission.AccelerationCharacteristic.read_from [0] =
      Except.error (PyErr.lengthMismatch 12 1) ∧
    BleSpeedTest.TimeCharacteristic.read_from [0] =
      Except.error (PyErr.lengthMismatch 4 1) :=
  ⟨((C4_length_mismatch [0]).1 (by decide)).1,
   ((C4_length_mismatch [0]).2 (by decide)).2.2⟩

/-- C9: the 12-byte little-endian buffer packing the binary32 triple
(1.0, 2.0, -1.0) decodes on the acceleration characteristic to the
measurement whose three fields hold, in order, the bit patterns whose
numeric values are 1, 2 and -1. Decoding is a pure function of the
buffer in this embedding, hence deterministic and side-effect free. -/
theorem C9_acceleration_decode :
    DataTransmission.AccelerationCharacteristic.read_from
        [0, 0, 128, 63, 0, 0, 0, 64, 0, 0, 128, 191] =
      Except.ok { ax := 1065353216, ay := 1073741824, az := 3212836864 } ∧
    f32val 1065353216 = some 1 ∧
    f32val 1073741824 = some 2 ∧
    f32val 3212836864 = some (-1) := by
  refine ⟨by rfl, ?_, ?_, ?_⟩ <;> norm_num [f32val]

/-- C5: on the 4-byte little-endian buffer encoding the unsigned 32-bit
integer 1, `TimeCharacteristic.read_from` stores the whole 1-tuple
returned by `unpack` (the assignment `time = unpack("<L", data)` never
destructures it), so the `time` field holds the tuple `(1,)` and not the
scalar 1 that the constructor's `time: int` annotation and the spec
describe. -/
theorem C5_time_field_is_tuple :
    BleSpeedTest.TimeCharacteristic.read_from [1, 0, 0, 0] =
      Except.ok { time := BleSpeedTest.PyVal.tuple [1] } ∧
    BleSpeedTest.PyVal.tuple [1] ≠ BleSpeedTest.PyVal.int 1 :=
  ⟨rfl, by decide⟩
